import Mathlib

/-!
Verification of the CoinFlow payments module (src/payments/payments.py).

The module keeps a Ledger: an in-memory list of Transaction records mirrored
to a JSON backing store on every mutation, together with orchestrators for
deposits via the Stripe gateway, card-to-card transfers, payment
confirmation, and a derived per-user balance.

Modelling conventions, each justified against the Python source:

* Monetary amounts (gross, net, fee) are Python floats in the source.  The
  main model uses exact rationals; the numerical claim about the source's
  binary64 arithmetic is settled separately with an explicit base-2
  round-to-nearest-even model (Bin64 below).
* uuid.uuid4() and datetime.now() are nondeterministic inputs; every
  operation that draws them takes them as explicit parameters (freshId, now).
* File writes can fail; _save_transactions catches the exception and only
  prints.  Each persisting operation takes a writeOk flag: the store is
  replaced when the write succeeds and kept as-is when it fails.
* JSON round trips of strings, floats, dict metadata and ISO-8601 timestamps
  are exact in Python, so the store holds the same field values, with the
  enum fields lowered to their string values exactly as to_dict does.
* The Stripe SDK is an opaque boundary: each adapter call takes the
  provider's outcome as a parameter, and the adapter's own configuration
  gate (self.initialized, or the module-level stripe_payments being None)
  is modelled by explicit Booleans.
-/

namespace CoinFlow

/-- Transaction types of the source enum TransactionType; the spec calls
stripe_deposit "deposit" and card_to_card "card_to_card_transfer". -/
inductive TransactionType
  | stripe_deposit
  | card_to_card
  | card_withdrawal
  deriving DecidableEq

/-- Transaction statuses of the source enum TransactionStatus. -/
inductive TransactionStatus
  | pending
  | completed
  | failed
  | cancelled
  deriving DecidableEq

/-- The .value string of a TransactionType member. -/
def TransactionType.value : TransactionType → String
  | .stripe_deposit => "stripe_deposit"
  | .card_to_card => "card_to_card"
  | .card_withdrawal => "card_withdrawal"

/-- The enum constructor TransactionType(s); None models the ValueError
raised on an unknown value. -/
def TransactionType.fromValue (s : String) : Option TransactionType :=
  if s = "stripe_deposit" then some .stripe_deposit
  else if s = "card_to_card" then some .card_to_card
  else if s = "card_withdrawal" then some .card_withdrawal
  else none

/-- The .value string of a TransactionStatus member. -/
def TransactionStatus.value : TransactionStatus → String
  | .pending => "pending"
  | .completed => "completed"
  | .failed => "failed"
  | .cancelled => "cancelled"

/-- The enum constructor TransactionStatus(s); None models the ValueError
raised on an unknown value. -/
def TransactionStatus.fromValue (s : String) : Option TransactionStatus :=
  if s = "pending" then some .pending
  else if s = "completed" then some .completed
  else if s = "failed" then some .failed
  else if s = "cancelled" then some .cancelled
  else none

/-- A value stored in the free-form metadata dict: the source stores strings
and float amounts there. -/
inductive MetaValue
  | str (s : String)
  | num (q : ℚ)
  deriving DecidableEq

/-- The free-form metadata mapping of a transaction. -/
abbrev Metadata := List (String × MetaValue)

/-- The dataclass Transaction of payments.py.  The timestamp is an opaque
creation instant (datetime in the source). -/
structure Transaction where
  id : String
  user_id : String
  type : TransactionType
  gross : ℚ
  net : ℚ
  fee : ℚ
  status : TransactionStatus
  timestamp : ℕ
  metadata : Option Metadata
  deriving DecidableEq

/-- One record of the JSON backing store: the dict produced by
Transaction.to_dict, with the enum fields lowered to strings.  JSON
round-trips floats, strings, dicts and isoformat timestamps exactly, so the
remaining fields keep their values. -/
structure StoredTx where
  id : String
  user_id : String
  type : String
  gross : ℚ
  net : ℚ
  fee : ℚ
  status : String
  timestamp : ℕ
  metadata : Option Metadata
  deriving DecidableEq

/-- Transaction.to_dict: serialize for the backing store. -/
def Transaction.to_dict (tx : Transaction) : StoredTx :=
  { id := tx.id
    user_id := tx.user_id
    type := tx.type.value
    gross := tx.gross
    net := tx.net
    fee := tx.fee
    status := tx.status.value
    timestamp := tx.timestamp
    metadata := tx.metadata }

/-- Parsing one stored item back into a Transaction, as the loop body of
Ledger._load_transactions does; None models the exception raised by an
unknown enum value. -/
def parseStoredTx (d : StoredTx) : Option Transaction :=
  match TransactionType.fromValue d.type, TransactionStatus.fromValue d.status with
  | some ty, some s =>
      some { id := d.id, user_id := d.user_id, type := ty, gross := d.gross,
             net := d.net, fee := d.fee, status := s, timestamp := d.timestamp,
             metadata := d.metadata }
  | _, _ => none

/-- The Ledger state: the in-memory transaction list and the JSON backing
store (the content of self.storage_file). -/
structure Ledger where
  transactions : List Transaction
  stored : List StoredTx
  deriving DecidableEq

/-- Ledger._load_transactions: parse the stored items in order, appending
each to the in-memory list; the try block wraps the whole loop, so the first
bad item aborts the load and keeps the records parsed before it. -/
def load_transactions : List StoredTx → List Transaction
  | [] => []
  | d :: rest =>
    match parseStoredTx d with
    | some tx => tx :: load_transactions rest
    | none => []

/-- Ledger.__init__ over an existing backing store. -/
def Ledger.ofStore (stored : List StoredTx) : Ledger :=
  { transactions := load_transactions stored, stored := stored }

/-- Ledger._save_transactions: rewrite the full store from memory; on a
failed write (writeOk = false) the exception is caught, only printed, and
the store keeps its previous content. -/
def Ledger.save_transactions (st : Ledger) (writeOk : Bool) : Ledger :=
  if writeOk then { st with stored := st.transactions.map Transaction.to_dict } else st

/-- Ledger.log_transaction: create a record with a fresh id and the current
time, append it in memory, persist, and return the id.  freshId stands for
str(uuid.uuid4()) and now for datetime.now(). -/
def Ledger.log_transaction (st : Ledger) (user_id : String)
    (transaction_type : TransactionType) (gross net fee : ℚ)
    (status : TransactionStatus) (metadata : Option Metadata)
    (freshId : String) (now : ℕ) (writeOk : Bool) : Ledger × String :=
  let transaction : Transaction :=
    { id := freshId, user_id := user_id, type := transaction_type,
      gross := gross, net := net, fee := fee, status := status,
      timestamp := now, metadata := metadata }
  let st1 : Ledger := { st with transactions := st.transactions ++ [transaction] }
  (st1.save_transactions writeOk, freshId)

/-- Ledger.get_transactions: linear filter by user id. -/
def Ledger.get_transactions (st : Ledger) (user_id : String) : List Transaction :=
  st.transactions.filter fun tx => tx.user_id == user_id

/-- The for-loop of Ledger.update_transaction_status: walk the list, and at
the first record with a matching id overwrite its status, save, and break.
Returns the updated list and the number of save calls made (0 or 1). -/
def updateStatusLoop (transaction_id : String) (status : TransactionStatus) :
    List Transaction → List Transaction × ℕ
  | [] => ([], 0)
  | tx :: rest =>
    if tx.id = transaction_id then ({ tx with status := status } :: rest, 1)
    else
      let r := updateStatusLoop transaction_id status rest
      (tx :: r.1, r.2)

/-- Ledger.update_transaction_status: first-match in-place status update
followed by a save; a missing id is a silent no-op.  The second component
counts the save calls of the walk. -/
def Ledger.update_transaction_status (st : Ledger) (transaction_id : String)
    (status : TransactionStatus) (writeOk : Bool) : Ledger × ℕ :=
  let r := updateStatusLoop transaction_id status st.transactions
  let st1 : Ledger := { st with transactions := r.1 }
  (if r.2 = 0 then st1 else st1.save_transactions writeOk, r.2)

/-- The dict returned by get_user_balance. -/
structure BalanceInfo where
  user_id : String
  balance : ℚ
  total_deposits : ℚ
  total_transfers : ℚ
  transaction_count : ℕ
  deriving DecidableEq

/-- get_user_balance: derive the balance of a user from that user's
transactions alone. -/
def get_user_balance (st : Ledger) (user_id : String) : BalanceInfo :=
  let transactions := st.get_transactions user_id
  let total_deposits :=
    ((transactions.filter fun tx =>
        tx.type == TransactionType.stripe_deposit
          && tx.status == TransactionStatus.completed).map Transaction.net).sum
  let total_transfers_out :=
    ((transactions.filter fun tx =>
        tx.type == TransactionType.card_to_card
          && tx.status == TransactionStatus.completed).map Transaction.gross).sum
  { user_id := user_id
    balance := total_deposits - total_transfers_out
    total_deposits := total_deposits
    total_transfers := total_transfers_out
    transaction_count := transactions.length }

/-- Outcome of one network call of the Stripe SDK (an opaque boundary): it
either yields a provider object or raises, which the adapter catches and
turns into an error dict. -/
inductive GatewayOutcome
  | ok
  | err (msg : String)
  deriving DecidableEq

/-- The error text of a module-level NotConfigured failure (stripe_payments
is None); the source message is Russian, rendered here in English. -/
def notConfiguredError : String := "Stripe API not configured"

/-- The error text of the adapter's own configuration gate
(StripePayments.initialized is false). -/
def notInitError : String := "Stripe API not initialized"

/-- StripePayments.create_payment_intent and create_checkout_session share
this shape: fail deterministically when the adapter is not initialized, else
return the provider's outcome.  The ledger is never touched here. -/
def create_payment_intent (initialized : Bool) (provider : GatewayOutcome) :
    GatewayOutcome :=
  if initialized then provider else .err notInitError

/-- The dict returned by the deposit and transfer orchestrators, restricted
to the fields the claims are about. -/
structure PayResult where
  success : Bool
  error : Option String
  transaction_id : Option String
  deriving DecidableEq

/-- deposit_via_stripe.  The configured flag models the stripe_payments
global being non-None; initialized and provider parametrize the adapter call
(create_checkout_session and create_payment_intent behave identically at
this level).  freshId stands for the uuid drawn inside log_transaction. -/
def deposit_via_stripe (configured initialized : Bool) (provider : GatewayOutcome)
    (st : Ledger) (user_id : String) (amount : ℚ) (freshId : String) (now : ℕ)
    (writeOk : Bool) : PayResult × Ledger :=
  if configured = false then
    ({ success := false, error := some notConfiguredError, transaction_id := none }, st)
  else
    let fee := amount * (29 / 1000) + 3 / 10
    let net_amount := amount - fee
    let r1 := st.log_transaction user_id .stripe_deposit amount net_amount fee
      .pending (some [("amount", MetaValue.num amount)]) freshId now writeOk
    let transaction_id := r1.2
    match create_payment_intent initialized provider with
    | .ok =>
        ({ success := true, error := none, transaction_id := some transaction_id }, r1.1)
    | .err m =>
        let st2 := (r1.1.update_transaction_status transaction_id .failed writeOk).1
        ({ success := false, error := some m, transaction_id := some transaction_id }, st2)

/-- create_card_to_card_transaction.  configured models STRIPE_AVAILABLE and
STRIPE_SECRET_KEY both set (otherwise the try block raises ValueError at
once); provider is the outcome of stripe.PaymentIntent.create; txId is the
uuid drawn by the orchestrator itself and ledgerId the distinct uuid drawn
inside log_transaction. -/
def create_card_to_card_transaction (configured : Bool) (provider : GatewayOutcome)
    (st : Ledger) (user_id : String) (amount : ℚ) (txId ledgerId : String)
    (now : ℕ) (writeOk : Bool) : PayResult × Ledger :=
  let transaction_id := txId
  match (if configured then provider else GatewayOutcome.err "Stripe not configured") with
  | .ok =>
      let r := st.log_transaction user_id .card_to_card amount amount 0
        .completed none ledgerId now writeOk
      ({ success := true, error := none, transaction_id := some transaction_id }, r.1)
  | .err m =>
      let r := st.log_transaction user_id .card_to_card amount amount 0
        .failed none ledgerId now writeOk
      ({ success := false, error := some m, transaction_id := some transaction_id }, r.1)

/-- Outcome of StripePayments.retrieve_payment_intent's network call: the
provider either raises (unknown reference, network failure) or reports a
status string together with the stored string-valued metadata. -/
inductive RetrieveOutcome
  | err (msg : String)
  | ok (status : String) (amount : ℚ) (metadata : List (String × String))
  deriving DecidableEq

/-- StripePayments.retrieve_payment_intent: configuration-gated wrapper
around the provider call; never touches the ledger. -/
def retrieve_payment_intent (initialized : Bool) (provider : RetrieveOutcome) :
    RetrieveOutcome :=
  if initialized then provider else .err notInitError

/-- The dict returned by confirm_stripe_payment, restricted to the fields
the claims are about. -/
structure ConfirmResult where
  success : Bool
  user_id : Option String
  transaction_id : Option String
  deriving DecidableEq

/-- confirm_stripe_payment: retrieve the provider status; only on a
"succeeded" status is the transaction id extracted from the provider-side
metadata and, when present and non-empty (Python truthiness of the id
string), the matching ledger record moved to completed. -/
def confirm_stripe_payment (configured initialized : Bool)
    (provider : RetrieveOutcome) (st : Ledger) (writeOk : Bool) :
    ConfirmResult × Ledger :=
  if configured = false then
    ({ success := false, user_id := none, transaction_id := none }, st)
  else
    match retrieve_payment_intent initialized provider with
    | .ok status _ md =>
        if status = "succeeded" then
          let uid := md.lookup "user_id"
          let tid := md.lookup "transaction_id"
          match tid with
          | some t =>
              if t = "" then
                ({ success := true, user_id := uid, transaction_id := tid }, st)
              else
                let st1 := (st.update_transaction_status t .completed writeOk).1
                ({ success := true, user_id := uid, transaction_id := tid }, st1)
          | none =>
              ({ success := true, user_id := uid, transaction_id := none }, st)
        else ({ success := false, user_id := none, transaction_id := none }, st)
    | .err _ => ({ success := false, user_id := none, transaction_id := none }, st)

/-!
A binary64 model for the numerical claim.  Python floats are IEEE-754
doubles; every value of the claim is a dyadic rational well inside the
normal range, so the model is exact rounding of dyadic and decimal values
to 53 significant bits, to nearest, ties to even, with no overflow or
subnormal handling (unreachable for the amounts involved).
-/

/-- Number of binary digits of a natural number, with explicit structural
fuel (n itself suffices since the argument at least halves each step). -/
def bitsAux : ℕ → ℕ → ℕ
  | 0, _ => 0
  | _, 0 => 0
  | fuel + 1, n => bitsAux fuel (n / 2) + 1

/-- Number of binary digits of a natural number. -/
def bits (n : ℕ) : ℕ := bitsAux n n

/-- Round-to-nearest-even of the fraction p / q (q positive). -/
def divRoundNE (p q : ℕ) : ℕ :=
  let d := p / q
  let r := p % q
  if 2 * r > q ∨ (2 * r = q ∧ d % 2 = 1) then d + 1 else d

/-- A binary64 value, as an exact dyadic rational m * 2 ^ e. -/
structure Bin64 where
  m : ℤ
  e : ℤ
  deriving DecidableEq

/-- Exact rational value of a Bin64. -/
def Bin64.toRat (x : Bin64) : ℚ :=
  if 0 ≤ x.e then (x.m : ℚ) * (2 : ℚ) ^ x.e.toNat
  else (x.m : ℚ) / (2 : ℚ) ^ (-x.e).toNat

/-- Round the dyadic value m * 2 ^ e to 53 significant bits, to nearest,
ties to even. -/
def binNorm (m : ℤ) (e : ℤ) : Bin64 :=
  let n := m.natAbs
  if bits n ≤ 53 then ⟨m, e⟩
  else
    let s := bits n - 53
    let q := divRoundNE n (2 ^ s)
    ⟨if m < 0 then -(q : ℤ) else (q : ℤ), e + s⟩

/-- Whether 2 ^ e ≤ a / b, over integers. -/
def pow2LE (e : ℤ) (a b : ℕ) : Bool :=
  if 0 ≤ e then b * 2 ^ e.toNat ≤ a else b ≤ a * 2 ^ (-e).toNat

/-- Floor of the base-2 logarithm of a / b (a, b positive). -/
def floorLog2 (a b : ℕ) : ℤ :=
  let e0 : ℤ := (bits a : ℤ) - (bits b : ℤ)
  if pow2LE e0 a b then e0 else e0 - 1

/-- The binary64 double nearest to a / b (b positive), for values in the
normal range: this is the value of a Python decimal literal a / b. -/
def ratBin64 (a b : ℕ) : Bin64 :=
  if a = 0 then ⟨0, 0⟩
  else
    let e := floorLog2 a b
    let s := 52 - e
    let m := if 0 ≤ s then divRoundNE (a * 2 ^ s.toNat) b
             else divRoundNE a (b * 2 ^ (-s).toNat)
    ⟨m, e - 52⟩

/-- Binary64 multiplication: round the exact product. -/
def Bin64.mul (x y : Bin64) : Bin64 := binNorm (x.m * y.m) (x.e + y.e)

/-- Binary64 addition: align exponents, add exactly, round once. -/
def Bin64.add (x y : Bin64) : Bin64 :=
  if x.e ≤ y.e then binNorm (x.m + y.m * 2 ^ (y.e - x.e).toNat) x.e
  else binNorm (x.m * 2 ^ (x.e - y.e).toNat + y.m) y.e

/-- Binary64 subtraction. -/
def Bin64.sub (x y : Bin64) : Bin64 := Bin64.add x ⟨-y.m, y.e⟩

/-- The Python float literal 0.029 (the Stripe percentage fee rate). -/
def fp029 : Bin64 := ratBin64 29 1000

/-- The Python float literal 0.30 (the Stripe fixed surcharge). -/
def fp030 : Bin64 := ratBin64 3 10

/-- The Python float literal 50.0. -/
def fp50 : Bin64 := ratBin64 50 1

/-- The Python float literal 20.0. -/
def fp20 : Bin64 := ratBin64 20 1

/-- The fee line of deposit_via_stripe, amount * 0.029 + 0.30, in the
source's binary64 arithmetic. -/
def stripe_fee_fp (amount : Bin64) : Bin64 := Bin64.add (Bin64.mul amount fp029) fp030

/-- The net line of deposit_via_stripe, amount - fee, in the source's
binary64 arithmetic. -/
def stripe_net_fp (amount : Bin64) : Bin64 := Bin64.sub amount (stripe_fee_fp amount)

/-- Python's sum over floats: a left fold of binary64 addition starting
from zero. -/
def sumBin64 (l : List Bin64) : Bin64 := l.foldl Bin64.add ⟨0, 0⟩

/-!
Helper lemmas shared by the claim theorems.
-/

theorem save_transactions_transactions (st : Ledger) (w : Bool) :
    (st.save_transactions w).transactions = st.transactions := by
  cases w <;> simp [Ledger.save_transactions]

/-- One append request to the Ledger, bundling the call arguments with the
nondeterministic inputs of the call (fresh uuid, clock, write outcome). -/
structure LogRequest where
  user_id : String
  type : TransactionType
  gross : ℚ
  net : ℚ
  fee : ℚ
  status : TransactionStatus
  metadata : Option Metadata
  freshId : String
  now : ℕ
  writeOk : Bool

/-- The state change of one log_transaction call. -/
def applyLog (st : Ledger) (r : LogRequest) : Ledger :=
  (st.log_transaction r.user_id r.type r.gross r.net r.fee r.status r.metadata
    r.freshId r.now r.writeOk).1

/-- The record a log_transaction call creates. -/
def LogRequest.toTx (r : LogRequest) : Transaction :=
  { id := r.freshId, user_id := r.user_id, type := r.type, gross := r.gross,
    net := r.net, fee := r.fee, status := r.status, timestamp := r.now,
    metadata := r.metadata }

/-- Replay a sequence of append calls against a Ledger state. -/
def replayLog (st : Ledger) (reqs : List LogRequest) : Ledger :=
  reqs.foldl applyLog st

theorem applyLog_transactions (st : Ledger) (r : LogRequest) :
    (applyLog st r).transactions = st.transactions ++ [r.toTx] := by
  simp [applyLog, Ledger.log_transaction, save_transactions_transactions, LogRequest.toTx]

theorem replayLog_transactions (reqs : List LogRequest) :
    ∀ st : Ledger, (replayLog st reqs).transactions
      = st.transactions ++ reqs.map LogRequest.toTx := by
  induction reqs with
  | nil => intro st; simp [replayLog]
  | cons r rest ih =>
      intro st
      have h1 : replayLog st (r :: rest) = replayLog (applyLog st r) rest := rfl
      rw [h1, ih, applyLog_transactions]
      simp

theorem updateStatusLoop_not_found (tid : String) (s : TransactionStatus) :
    ∀ l : List Transaction, (∀ tx ∈ l, tx.id ≠ tid) → updateStatusLoop tid s l = (l, 0) := by
  intro l
  induction l with
  | nil => intro _; rfl
  | cons tx rest ih =>
      intro h
      have htx : tx.id ≠ tid := h tx (by simp)
      have hrest : ∀ x ∈ rest, x.id ≠ tid := fun x hx => h x (by simp [hx])
      simp [updateStatusLoop, htx, ih hrest]

theorem updateStatusLoop_first (tid : String) (s : TransactionStatus)
    (a : Transaction) (post : List Transaction) (ha : a.id = tid) :
    ∀ pre : List Transaction, (∀ x ∈ pre, x.id ≠ tid) →
      updateStatusLoop tid s (pre ++ a :: post)
        = (pre ++ { a with status := s } :: post, 1) := by
  intro pre
  induction pre with
  | nil => intro _; simp [updateStatusLoop, ha]
  | cons x rest ih =>
      intro h
      have hx : x.id ≠ tid := h x (by simp)
      have hrest : ∀ y ∈ rest, y.id ≠ tid := fun y hy => h y (by simp [hy])
      simp [updateStatusLoop, hx, ih hrest]

theorem updateStatusLoop_count (tid : String) (s : TransactionStatus) :
    ∀ l : List Transaction, (updateStatusLoop tid s l).2 ≤ 1 := by
  intro l
  induction l with
  | nil => simp [updateStatusLoop]
  | cons tx rest ih =>
      by_cases htx : tx.id = tid <;> simp [updateStatusLoop, htx, ih]

theorem fromValue_type_value (t : TransactionType) :
    TransactionType.fromValue t.value = some t := by
  cases t <;> rfl

theorem fromValue_status_value (s : TransactionStatus) :
    TransactionStatus.fromValue s.value = some s := by
  cases s <;> rfl

theorem parseStoredTx_to_dict (tx : Transaction) :
    parseStoredTx tx.to_dict = some tx := by
  simp [parseStoredTx, Transaction.to_dict, fromValue_type_value, fromValue_status_value]

theorem load_transactions_map_to_dict (l : List Transaction) :
    load_transactions (l.map Transaction.to_dict) = l := by
  induction l with
  | nil => rfl
  | cons tx rest ih => simp [load_transactions, parseStoredTx_to_dict, ih]

/-!
The claim theorems.
-/

/-- C1: get_user_balance is a pure function of the ledger and the queried
user: total_deposits is the sum of net over the user's completed
stripe_deposit records, total_transfers the sum of gross over the user's
completed card_to_card records, balance their difference, and a user with
no transactions has balance 0.  Purity and determinism hold by
construction: the embedding is a total function of the state with no state
output. -/
theorem get_user_balance_spec (st : Ledger) (uid : String) :
    (get_user_balance st uid).total_deposits
        = ((st.transactions.filter fun tx =>
            (tx.type == TransactionType.stripe_deposit
              && tx.status == TransactionStatus.completed)
              && tx.user_id == uid).map Transaction.net).sum
    ∧ (get_user_balance st uid).total_transfers
        = ((st.transactions.filter fun tx =>
            (tx.type == TransactionType.card_to_card
              && tx.status == TransactionStatus.completed)
              && tx.user_id == uid).map Transaction.gross).sum
    ∧ (get_user_balance st uid).balance
        = (get_user_balance st uid).total_deposits
            - (get_user_balance st uid).total_transfers
    ∧ (st.transactions.filter (fun tx => tx.user_id == uid) = []
        → (get_user_balance st uid).balance = 0) := by
  refine ⟨?_, ?_, rfl, ?_⟩
  · simp [get_user_balance, Ledger.get_transactions, List.filter_filter]
  · simp [get_user_balance, Ledger.get_transactions, List.filter_filter]
  · intro h
    simp [get_user_balance, Ledger.get_transactions, h]

/-- C1 witness: on a concrete one-deposit ledger the balance equation and
the empty-user case hold. -/
theorem get_user_balance_spec_witness :
    (get_user_balance (Ledger.mk [] []) "user_001").balance = 0 := by
  have h := get_user_balance_spec (Ledger.mk [] []) "user_001"
  exact h.2.2.2 rfl

/-- C2: after any sequence of log_transaction calls starting from an empty
ledger, get_transactions returns exactly the appended records whose user_id
matches, in insertion order; it reads the state and performs no mutation
(the embedding returns no state). -/
theorem get_transactions_replay (reqs : List LogRequest) (uid : String) :
    (replayLog (Ledger.ofStore []) reqs).get_transactions uid
      = (reqs.map LogRequest.toTx).filter fun tx => tx.user_id == uid := by
  simp [Ledger.get_transactions, replayLog_transactions, Ledger.ofStore, load_transactions]

/-- C3: update_transaction_status on a present id rewrites exactly the
first matching record, changing only its status and keeping every other
field and every other record; on an absent id the whole Ledger state is
unchanged. -/
theorem update_transaction_status_frame (st : Ledger) (tid : String)
    (s : TransactionStatus) (writeOk : Bool) :
    ((∀ tx ∈ st.transactions, tx.id ≠ tid) →
        (st.update_transaction_status tid s writeOk).1 = st)
    ∧ (∀ pre a post, st.transactions = pre ++ a :: post →
        (∀ x ∈ pre, x.id ≠ tid) → a.id = tid →
        ((st.update_transaction_status tid s writeOk).1).transactions
          = pre ++ { a with status := s } :: post) := by
  constructor
  · intro h
    simp [Ledger.update_transaction_status, updateStatusLoop_not_found tid s _ h]
  · intro pre a post hsplit hpre ha
    simp [Ledger.update_transaction_status, hsplit,
      updateStatusLoop_first tid s a post ha pre hpre, save_transactions_transactions]

/-- C3 witness: on a concrete two-record ledger, updating the second
record's status by id changes only that status, and an unknown id leaves
the state unchanged. -/
theorem update_transaction_status_frame_witness :
    ((Ledger.mk
        [{ id := "t1", user_id := "u", type := TransactionType.stripe_deposit,
           gross := 5, net := 4, fee := 1, status := TransactionStatus.pending,
           timestamp := 11, metadata := none },
         { id := "t2", user_id := "u", type := TransactionType.card_to_card,
           gross := 3, net := 3, fee := 0, status := TransactionStatus.pending,
           timestamp := 12, metadata := none }] []).update_transaction_status
        "t2" TransactionStatus.completed true).1.transactions
      = [{ id := "t1", user_id := "u", type := TransactionType.stripe_deposit,
           gross := 5, net := 4, fee := 1, status := TransactionStatus.pending,
           timestamp := 11, metadata := none },
         { id := "t2", user_id := "u", type := TransactionType.card_to_card,
           gross := 3, net := 3, fee := 0, status := TransactionStatus.completed,
           timestamp := 12, metadata := none }]
    ∧ ((Ledger.mk
        [{ id := "t1", user_id := "u", type := TransactionType.stripe_deposit,
           gross := 5, net := 4, fee := 1, status := TransactionStatus.pending,
           timestamp := 11, metadata := none }] []).update_transaction_status
        "missing" TransactionStatus.completed true).1
      = Ledger.mk
        [{ id := "t1", user_id := "u", type := TransactionType.stripe_deposit,
           gross := 5, net := 4, fee := 1, status := TransactionStatus.pending,
           timestamp := 11, metadata := none }] [] := by
  constructor
  · exact (update_transaction_status_frame _ "t2" TransactionStatus.completed true).2
      [{ id := "t1", user_id := "u", type := TransactionType.stripe_deposit,
         gross := 5, net := 4, fee := 1, status := TransactionStatus.pending,
         timestamp := 11, metadata := none }]
      { id := "t2", user_id := "u", type := TransactionType.card_to_card,
        gross := 3, net := 3, fee := 0, status := TransactionStatus.pending,
        timestamp := 12, metadata := none }
      [] rfl (by simp) rfl
  · exact (update_transaction_status_frame _ "missing" TransactionStatus.completed true).1
      (by simp)

/-- C4: persisting the ledger and loading a new Ledger from the resulting
store reproduces the transaction sequence field-by-field (equality of
Transaction values is equality of all nine fields), for any mix of types
and statuses. -/
theorem ledger_persist_reload (st : Ledger) :
    (Ledger.ofStore ((st.save_transactions true).stored)).transactions
      = st.transactions := by
  simp [Ledger.save_transactions, Ledger.ofStore, load_transactions_map_to_dict]

/-- C10: with duplicate ids in the ledger, update_transaction_status
rewrites only the first matching record, keeps every later record with the
same id unchanged, and calls the persistence write at most once. -/
theorem update_transaction_status_first_match (st : Ledger) (tid : String)
    (s : TransactionStatus) (writeOk : Bool) (pre mid post : List Transaction)
    (a b : Transaction) (hsplit : st.transactions = pre ++ a :: (mid ++ b :: post))
    (hpre : ∀ x ∈ pre, x.id ≠ tid) (ha : a.id = tid) (_hb : b.id = tid) :
    ((st.update_transaction_status tid s writeOk).1).transactions
        = pre ++ { a with status := s } :: (mid ++ b :: post)
    ∧ (st.update_transaction_status tid s writeOk).2 ≤ 1 := by
  constructor
  · simp [Ledger.update_transaction_status, hsplit,
      updateStatusLoop_first tid s a (mid ++ b :: post) ha pre hpre,
      save_transactions_transactions]
  · simpa [Ledger.update_transaction_status] using
      updateStatusLoop_count tid s st.transactions

/-- C10 witness: two records share the id t1; the update rewrites only the
first and writes the store once. -/
theorem update_transaction_status_first_match_witness :
    ((Ledger.mk
        [{ id := "t1", user_id := "u", type := TransactionType.card_to_card,
           gross := 1, net := 1, fee := 0, status := TransactionStatus.pending,
           timestamp := 1, metadata := none },
         { id := "t1", user_id := "u", type := TransactionType.card_to_card,
           gross := 2, net := 2, fee := 0, status := TransactionStatus.pending,
           timestamp := 2, metadata := none }] []).update_transaction_status
        "t1" TransactionStatus.completed true).1.transactions
      = [{ id := "t1", user_id := "u", type := TransactionType.card_to_card,
           gross := 1, net := 1, fee := 0, status := TransactionStatus.completed,
           timestamp := 1, metadata := none },
         { id := "t1", user_id := "u", type := TransactionType.card_to_card,
           gross := 2, net := 2, fee := 0, status := TransactionStatus.pending,
           timestamp := 2, metadata := none }]
    ∧ ((Ledger.mk
        [{ id := "t1", user_id := "u", type := TransactionType.card_to_card,
           gross := 1, net := 1, fee := 0, status := TransactionStatus.pending,
           timestamp := 1, metadata := none },
         { id := "t1", user_id := "u", type := TransactionType.card_to_card,
           gross := 2, net := 2, fee := 0, status := TransactionStatus.pending,
           timestamp := 2, metadata := none }] []).update_transaction_status
        "t1" TransactionStatus.completed true).2 ≤ 1 := by
  exact update_transaction_status_first_match _ "t1" TransactionStatus.completed true
    [] [] []
    { id := "t1", user_id := "u", type := TransactionType.card_to_card,
      gross := 1, net := 1, fee := 0, status := TransactionStatus.pending,
      timestamp := 1, metadata := none }
    { id := "t1", user_id := "u", type := TransactionType.card_to_card,
      gross := 2, net := 2, fee := 0, status := TransactionStatus.pending,
      timestamp := 2, metadata := none }
    rfl (by simp) rfl rfl

/-- C5 counterexample: with the provider unconfigured at module level
(stripe_payments is None), a deposit attempt returns the NotConfigured
failure through the guard at the top of deposit_via_stripe and writes no
ledger record at all, contradicting the claim that every attempt leaves
exactly one new record. -/
theorem deposit_not_configured_counterexample :
    (deposit_via_stripe false false (GatewayOutcome.err "network down")
        (Ledger.mk [] []) "user_001" 50 "uuid-0" 0 true).1.success = false
    ∧ (deposit_via_stripe false false (GatewayOutcome.err "network down")
        (Ledger.mk [] []) "user_001" 50 "uuid-0" 0 true).1.error
        = some notConfiguredError
    ∧ (deposit_via_stripe false false (GatewayOutcome.err "network down")
        (Ledger.mk [] []) "user_001" 50 "uuid-0" 0 true).2.transactions = [] :=
  ⟨rfl, rfl, rfl⟩

/-- C5 amended: when stripe_payments is None the deposit returns the
NotConfigured failure and performs no ledger write at all; only when the
adapter object exists but is not initialized does the ledger gain exactly
one new record for the attempt, created pending and immediately moved to
failed, with the attempt's transaction id in the failure result. -/
theorem deposit_not_configured_amended (st : Ledger) (uid : String) (amount : ℚ)
    (freshId : String) (now : ℕ) (writeOk : Bool) (provider : GatewayOutcome)
    (hfresh : ∀ tx ∈ st.transactions, tx.id ≠ freshId) :
    deposit_via_stripe false false provider st uid amount freshId now writeOk
        = ({ success := false, error := some notConfiguredError,
             transaction_id := none }, st)
    ∧ (deposit_via_stripe true false provider st uid amount freshId now
        writeOk).1.success = false
    ∧ (deposit_via_stripe true false provider st uid amount freshId now
        writeOk).1.transaction_id = some freshId
    ∧ (deposit_via_stripe true false provider st uid amount freshId now
        writeOk).2.transactions
        = st.transactions ++
          [{ id := freshId, user_id := uid, type := TransactionType.stripe_deposit,
             gross := amount, net := amount - (amount * (29 / 1000) + 3 / 10),
             fee := amount * (29 / 1000) + 3 / 10,
             status := TransactionStatus.failed, timestamp := now,
             metadata := some [("amount", MetaValue.num amount)] }] := by
  refine ⟨rfl, rfl, rfl, ?_⟩
  have hloop := updateStatusLoop_first freshId TransactionStatus.failed
    { id := freshId, user_id := uid, type := TransactionType.stripe_deposit,
      gross := amount, net := amount - (amount * (29 / 1000) + 3 / 10),
      fee := amount * (29 / 1000) + 3 / 10,
      status := TransactionStatus.pending, timestamp := now,
      metadata := some [("amount", MetaValue.num amount)] }
    [] rfl st.transactions hfresh
  simp [deposit_via_stripe, create_payment_intent, Ledger.log_transaction,
    Ledger.update_transaction_status, save_transactions_transactions, hloop]

/-- C5 witness: on an empty ledger, a not-configured attempt returns the
failure with the state unchanged, and an uninitialized-adapter attempt
leaves exactly one failed record. -/
theorem deposit_not_configured_amended_witness :
    deposit_via_stripe false false (GatewayOutcome.err "network down")
        (Ledger.mk [] []) "user_001" 50 "uuid-0" 7 true
      = ({ success := false, error := some notConfiguredError,
           transaction_id := none }, Ledger.mk [] [])
    ∧ (deposit_via_stripe true false (GatewayOutcome.err "network down")
        (Ledger.mk [] []) "user_001" 50 "uuid-0" 7 true).2.transactions
      = [{ id := "uuid-0", user_id := "user_001",
           type := TransactionType.stripe_deposit, gross := 50,
           net := 50 - (50 * (29 / 1000) + 3 / 10),
           fee := 50 * (29 / 1000) + 3 / 10,
           status := TransactionStatus.failed, timestamp := 7,
           metadata := some [("amount", MetaValue.num 50)] }] := by
  have h := deposit_not_configured_amended (Ledger.mk [] []) "user_001" 50
    "uuid-0" 7 true (GatewayOutcome.err "network down") (by simp)
  exact ⟨h.1, by simpa using h.2.2.2⟩

/-- C6 counterexample: on a failed transfer attempt the orchestrator
returns the id it drew up front, but the failed ledger record is written
through log_transaction, which draws a fresh uuid of its own; the record's
id differs from the id in the result, so the id is not preserved in the
ledger. -/
theorem card_to_card_id_counterexample :
    (create_card_to_card_transaction false (GatewayOutcome.err "x")
        (Ledger.mk [] []) "user_001" 100 "uuid-0" "uuid-1" 0 true).1.transaction_id
      = some "uuid-0"
    ∧ (create_card_to_card_transaction false (GatewayOutcome.err "x")
        (Ledger.mk [] []) "user_001" 100 "uuid-0" "uuid-1" 0 true).2.transactions
      = [{ id := "uuid-1", user_id := "user_001",
           type := TransactionType.card_to_card, gross := 100, net := 100,
           fee := 0, status := TransactionStatus.failed, timestamp := 0,
           metadata := none }]
    ∧ ("uuid-1" : String) ≠ "uuid-0" :=
  ⟨rfl, rfl, by decide⟩

/-- C6 amended: the transfer orchestrator draws the transaction id before
the provider call and returns that same id in both the success and the
failure result, and always writes exactly one ledger record per attempt,
completed on provider success and failed on any exception; the ledger
record however carries a fresh ledger-generated id, not the pre-generated
transaction id, which survives only in the returned result. -/
theorem create_card_to_card_audit (configured : Bool) (provider : GatewayOutcome)
    (st : Ledger) (uid : String) (amount : ℚ) (txId ledgerId : String) (now : ℕ)
    (writeOk : Bool) :
    (create_card_to_card_transaction configured provider st uid amount txId
        ledgerId now writeOk).1.transaction_id = some txId
    ∧ ((if configured then provider else GatewayOutcome.err "Stripe not configured")
          = GatewayOutcome.ok →
        (create_card_to_card_transaction configured provider st uid amount txId
            ledgerId now writeOk).1.success = true
        ∧ (create_card_to_card_transaction configured provider st uid amount txId
            ledgerId now writeOk).2.transactions
          = st.transactions ++
            [{ id := ledgerId, user_id := uid, type := TransactionType.card_to_card,
               gross := amount, net := amount, fee := 0,
               status := TransactionStatus.completed, timestamp := now,
               metadata := none }])
    ∧ (∀ m, (if configured then provider
            else GatewayOutcome.err "Stripe not configured")
          = GatewayOutcome.err m →
        (create_card_to_card_transaction configured provider st uid amount txId
            ledgerId now writeOk).1.success = false
        ∧ (create_card_to_card_transaction configured provider st uid amount txId
            ledgerId now writeOk).2.transactions
          = st.transactions ++
            [{ id := ledgerId, user_id := uid, type := TransactionType.card_to_card,
               gross := amount, net := amount, fee := 0,
               status := TransactionStatus.failed, timestamp := now,
               metadata := none }]) := by
  refine ⟨?_, ?_, ?_⟩
  · cases h : (if configured then provider
        else GatewayOutcome.err "Stripe not configured") <;>
      simp [create_card_to_card_transaction, h]
  · intro h
    constructor <;>
      simp [create_card_to_card_transaction, h, Ledger.log_transaction,
        save_transactions_transactions]
  · intro m h
    constructor <;>
      simp [create_card_to_card_transaction, h, Ledger.log_transaction,
        save_transactions_transactions]

/-- C6 witness: a successful configured transfer returns the orchestrator's
id and appends one completed record with the ledger's own id. -/
theorem create_card_to_card_audit_witness :
    (create_card_to_card_transaction true GatewayOutcome.ok (Ledger.mk [] [])
        "user_001" 100 "uuid-0" "uuid-1" 3 true).1.transaction_id = some "uuid-0"
    ∧ (create_card_to_card_transaction true GatewayOutcome.ok (Ledger.mk [] [])
        "user_001" 100 "uuid-0" "uuid-1" 3 true).1.success = true
    ∧ (create_card_to_card_transaction true GatewayOutcome.ok (Ledger.mk [] [])
        "user_001" 100 "uuid-0" "uuid-1" 3 true).2.transactions
      = [{ id := "uuid-1", user_id := "user_001",
           type := TransactionType.card_to_card, gross := 100, net := 100,
           fee := 0, status := TransactionStatus.completed, timestamp := 3,
           metadata := none }] := by
  have h := create_card_to_card_audit true GatewayOutcome.ok (Ledger.mk [] [])
    "user_001" 100 "uuid-0" "uuid-1" 3 true
  exact ⟨h.1, (h.2.1 rfl).1, by simpa using (h.2.1 rfl).2⟩

/-- C7: log_transaction returns the fresh transaction id to the caller (it
is a total function, never an exception) both when the backing-store write
succeeds and when it fails; the in-memory append happens regardless, and on
a failed write the store is simply left at its previous content rather than
rolling back the append. -/
theorem log_transaction_never_fails (st : Ledger) (uid : String)
    (ty : TransactionType) (g n f : ℚ) (s : TransactionStatus)
    (md : Option Metadata) (freshId : String) (now : ℕ) :
    (st.log_transaction uid ty g n f s md freshId now true).2 = freshId
    ∧ (st.log_transaction uid ty g n f s md freshId now false).2 = freshId
    ∧ (st.log_transaction uid ty g n f s md freshId now true).1.transactions
        = st.transactions ++
          [{ id := freshId, user_id := uid, type := ty, gross := g, net := n,
             fee := f, status := s, timestamp := now, metadata := md }]
    ∧ (st.log_transaction uid ty g n f s md freshId now false).1.transactions
        = st.transactions ++
          [{ id := freshId, user_id := uid, type := ty, gross := g, net := n,
             fee := f, status := s, timestamp := now, metadata := md }]
    ∧ (st.log_transaction uid ty g n f s md freshId now false).1.stored
        = st.stored := by
  refine ⟨rfl, rfl, ?_, ?_, rfl⟩ <;>
    simp [Ledger.log_transaction, save_transactions_transactions]

/-- C8: confirm_stripe_payment fails and leaves the whole Ledger state
unchanged whenever the module is unconfigured, the provider lookup raises
(unknown reference), or the retrieved status is not "succeeded"; on a
"succeeded" status it reports success, and only when a non-empty
transaction id is found in the provider metadata is that id's ledger
record moved to completed. -/
theorem confirm_stripe_payment_frame (configured initialized : Bool)
    (provider : RetrieveOutcome) (st : Ledger) (writeOk : Bool) :
    (configured = false →
        confirm_stripe_payment configured initialized provider st writeOk
          = ({ success := false, user_id := none, transaction_id := none }, st))
    ∧ (∀ m, configured = true →
        retrieve_payment_intent initialized provider = RetrieveOutcome.err m →
        confirm_stripe_payment configured initialized provider st writeOk
          = ({ success := false, user_id := none, transaction_id := none }, st))
    ∧ (∀ status amt md, configured = true →
        retrieve_payment_intent initialized provider
          = RetrieveOutcome.ok status amt md →
        status ≠ "succeeded" →
        confirm_stripe_payment configured initialized provider st writeOk
          = ({ success := false, user_id := none, transaction_id := none }, st))
    ∧ (∀ amt md, configured = true →
        retrieve_payment_intent initialized provider
          = RetrieveOutcome.ok "succeeded" amt md →
        (confirm_stripe_payment configured initialized provider st
            writeOk).1.success = true
        ∧ (∀ t, md.lookup "transaction_id" = some t → t ≠ "" →
            (confirm_stripe_payment configured initialized provider st writeOk).2
              = (st.update_transaction_status t TransactionStatus.completed
                  writeOk).1)
        ∧ (md.lookup "transaction_id" = none →
            (confirm_stripe_payment configured initialized provider st writeOk).2
              = st)
        ∧ (md.lookup "transaction_id" = some "" →
            (confirm_stripe_payment configured initialized provider st writeOk).2
              = st)) := by
  refine ⟨?_, ?_, ?_, ?_⟩
  · intro h
    simp [confirm_stripe_payment, h]
  · intro m hc h
    simp [confirm_stripe_payment, hc, h]
  · intro status amt md hc h hs
    simp [confirm_stripe_payment, hc, h, hs]
  · intro amt md hc h
    refine ⟨?_, ?_, ?_, ?_⟩
    · rcases hl : md.lookup "transaction_id" with _ | t
      · simp [confirm_stripe_payment, hc, h, hl]
      · by_cases ht : t = "" <;> simp [confirm_stripe_payment, hc, h, hl, ht]
    · intro t hl ht
      simp [confirm_stripe_payment, hc, h, hl, ht]
    · intro hl
      simp [confirm_stripe_payment, hc, h, hl]
    · intro hl
      simp [confirm_stripe_payment, hc, h, hl]

/-- C8 witness: a succeeded provider status with a transaction id in the
metadata moves exactly that pending record to completed, and an unknown
reference leaves the ledger unchanged. -/
theorem confirm_stripe_payment_frame_witness :
    (confirm_stripe_payment true true
        (RetrieveOutcome.ok "succeeded" 50
          [("user_id", "user_001"), ("transaction_id", "t1")])
        (Ledger.mk
          [{ id := "t1", user_id := "user_001",
             type := TransactionType.stripe_deposit, gross := 50, net := 48,
             fee := 2, status := TransactionStatus.pending, timestamp := 1,
             metadata := none }] []) true).1.success = true
    ∧ (confirm_stripe_payment true true
        (RetrieveOutcome.ok "succeeded" 50
          [("user_id", "user_001"), ("transaction_id", "t1")])
        (Ledger.mk
          [{ id := "t1", user_id := "user_001",
             type := TransactionType.stripe_deposit, gross := 50, net := 48,
             fee := 2, status := TransactionStatus.pending, timestamp := 1,
             metadata := none }] []) true).2
      = ((Ledger.mk
          [{ id := "t1", user_id := "user_001",
             type := TransactionType.stripe_deposit, gross := 50, net := 48,
             fee := 2, status := TransactionStatus.pending, timestamp := 1,
             metadata := none }] []).update_transaction_status "t1"
          TransactionStatus.completed true).1
    ∧ (confirm_stripe_payment true true (RetrieveOutcome.err "no such intent")
        (Ledger.mk
          [{ id := "t1", user_id := "user_001",
             type := TransactionType.stripe_deposit, gross := 50, net := 48,
             fee := 2, status := TransactionStatus.pending, timestamp := 1,
             metadata := none }] []) true).2
      = Ledger.mk
          [{ id := "t1", user_id := "user_001",
             type := TransactionType.stripe_deposit, gross := 50, net := 48,
             fee := 2, status := TransactionStatus.pending, timestamp := 1,
             metadata := none }] [] := by
  have h := confirm_stripe_payment_frame true true
    (RetrieveOutcome.ok "succeeded" 50
      [("user_id", "user_001"), ("transaction_id", "t1")])
    (Ledger.mk
      [{ id := "t1", user_id := "user_001",
         type := TransactionType.stripe_deposit, gross := 50, net := 48,
         fee := 2, status := TransactionStatus.pending, timestamp := 1,
         metadata := none }] []) true
  have h4 := h.2.2.2 50 [("user_id", "user_001"), ("transaction_id", "t1")] rfl rfl
  have herr := confirm_stripe_payment_frame true true
    (RetrieveOutcome.err "no such intent")
    (Ledger.mk
      [{ id := "t1", user_id := "user_001",
         type := TransactionType.stripe_deposit, gross := 50, net := 48,
         fee := 2, status := TransactionStatus.pending, timestamp := 1,
         metadata := none }] []) true
  refine ⟨h4.1, h4.2.1 "t1" rfl (by decide), ?_⟩
  have := herr.2.1 "no such intent" rfl rfl
  exact congrArg Prod.snd this

/-- C9 counterexample: in the source's binary64 arithmetic the fee for a
50.0 deposit, 50 * 0.029 + 0.30, is 7881299347898369 * 2 ^ (-52), one unit
in the last place above 1.75, not 1.75 exactly. -/
theorem stripe_fee_binary64_counterexample :
    stripe_fee_fp fp50 = ⟨7881299347898369, -52⟩
    ∧ Bin64.toRat ⟨7881299347898369, -52⟩ ≠ 7 / 4 := by
  constructor
  · decide
  · simp [Bin64.toRat]
    norm_num

/-- C9 amended: in binary64 the fee for a 50.0 deposit is
1.7500000000000002 = 7/4 + 2 ^ (-52), not exactly 1.75; the net 50 - fee is
nevertheless exactly 48.25 and the transfer amount exactly 20.0, so both
the float summation of the source and the balance computation over the
resulting ledger records return exactly 28.25. -/
theorem stripe_balance_binary64 :
    (stripe_fee_fp fp50).toRat = 7 / 4 + 1 / 2 ^ 52
    ∧ stripe_net_fp fp50 = ⟨6790583813144576, -47⟩
    ∧ (stripe_net_fp fp50).toRat = 193 / 4
    ∧ fp20.toRat = 20
    ∧ (Bin64.sub (sumBin64 [stripe_net_fp fp50]) (sumBin64 [fp20])).toRat = 113 / 4
    ∧ (get_user_balance (Ledger.mk
        [{ id := "d1", user_id := "user_001",
           type := TransactionType.stripe_deposit, gross := 50,
           net := (stripe_net_fp fp50).toRat, fee := (stripe_fee_fp fp50).toRat,
           status := TransactionStatus.completed, timestamp := 1,
           metadata := none },
         { id := "c1", user_id := "user_001",
           type := TransactionType.card_to_card, gross := fp20.toRat,
           net := fp20.toRat, fee := 0, status := TransactionStatus.completed,
           timestamp := 2, metadata := none }] []) "user_001").balance
      = 113 / 4 := by
  have hfee : stripe_fee_fp fp50 = ⟨7881299347898369, -52⟩ := by decide
  have hnet : stripe_net_fp fp50 = ⟨6790583813144576, -47⟩ := by decide
  have h20 : fp20 = ⟨5629499534213120, -48⟩ := by decide
  have hsub : Bin64.sub (sumBin64 [stripe_net_fp fp50]) (sumBin64 [fp20])
      = ⟨7951668092076032, -48⟩ := by decide
  have hfeeR : (stripe_fee_fp fp50).toRat = 7 / 4 + 1 / 2 ^ 52 := by
    rw [hfee]; simp [Bin64.toRat]; norm_num
  have hnetR : (stripe_net_fp fp50).toRat = 193 / 4 := by
    rw [hnet]; simp [Bin64.toRat]; norm_num
  have h20R : fp20.toRat = 20 := by
    rw [h20]; simp [Bin64.toRat]; norm_num
  refine ⟨hfeeR, hnet, hnetR, h20R, ?_, ?_⟩
  · rw [hsub]; simp [Bin64.toRat]; norm_num
  · simp [get_user_balance, Ledger.get_transactions, hnetR, h20R]
    norm_num

end CoinFlow
